import Mathlib

/-!
# Verification of the PyNUT_Py3 protocol client

A shallow embedding of `src/scripts/python/module/PyNUT_Py3.py` (class
`PyNUTClient`), the NUT (Network UPS Tools) protocol session layer.

The transport (a `telnetlib.Telnet` handle) is modelled as a `Conn` state:
the ordered list of byte strings written so far, plus the remaining incoming
byte stream.  All protocol content here is ASCII, so both Python `bytes` and
Python `str` payloads are carried as Lean `String`s; where the distinction
between the two runtime types is itself load-bearing (equality between a
`bytes` and a `str` value is always `False` in Python 3, and `telnetlib`
rejects `str` arguments to `write`/`read_until`), the tagged type `PyVal`
records it.

Each `PyNUTClient` method becomes a function `Conn → (Except PyErr α) × Conn`:
Python exceptions do not undo writes or reads already performed, so the
connection state is returned on the error path too.

The Python string operations used by the code (`split`, slicing, `replace`,
`len`) are modelled by structurally recursive functions over the character
list of a `String`, so that every definition evaluates inside the kernel.
-/

namespace PyNUT

/-! ## Python string primitives -/

/-- Fuel-indexed splitter over character lists: `splitOnCh sep fuel s` is
Python `s.split(sep)` for a non-empty `sep`, provided `fuel ≥ s.length`.
Each recursive call consumes at least one character, so the fuel
`s.length` is always sufficient. -/
def splitOnCh (sep : List Char) : Nat → List Char → List (List Char)
  | 0, s => [s]
  | fuel + 1, s =>
    match s with
    | [] => [[]]
    | ch :: rest =>
      if sep.isPrefixOf s then
        [] :: splitOnCh sep fuel (s.drop sep.length)
      else
        match splitOnCh sep fuel rest with
        | [] => [[ch]]
        | t :: ts => (ch :: t) :: ts

/-- Python `s.split(sep)` for non-empty `sep` (the only way the code calls
it): the list of chunks between non-overlapping occurrences of `sep`,
scanned left to right; `"".split(sep) = [""]`. -/
def pySplit (s sep : String) : List String :=
  (splitOnCh sep.data s.data.length s.data).map fun l => ⟨l⟩

/-- Python `s[:n]` for `n ≥ 0` (clamped at the end of the string). -/
def pyTake (s : String) (n : Nat) : String :=
  ⟨s.data.take n⟩

/-- Python `s[n:]` for `n ≥ 0` (clamped at the end of the string). -/
def pyDrop (s : String) (n : Nat) : String :=
  ⟨s.data.drop n⟩

/-- Python `len(s)` (ASCII, so characters and bytes agree). -/
def pyLen (s : String) : Nat :=
  s.data.length

/-- Python `s.replace(old, new)` for non-empty `old`: replace every
non-overlapping occurrence. -/
def pyReplace (s old new : String) : String :=
  ⟨List.intercalate new.data (splitOnCh old.data s.data.length s.data)⟩

/-! ## Error and connection model -/

/-- The kinds of exception the embedded methods can raise.
`pyNUTError` is the module's own `PyNUTError(detail)`; `pyNUTErrorPair` is
`PyNUTError((a, b))` as raised by `FSD`; the rest are the Python builtin
exceptions the code can hit (`TypeError`, `AttributeError`, `IndexError`,
`ValueError`), plus `transportError` for a read whose delimiter never
arrives. -/
inductive PyErr where
  | pyNUTError (detail : String)
  | pyNUTErrorPair (a b : String)
  | typeError
  | attributeError
  | indexError
  | valueError
  | transportError
  deriving Repr, DecidableEq

/-- The state of the Telnet connection: bytes written so far (one entry per
`write` call), and the remaining incoming byte stream. -/
structure Conn where
  written : List String
  incoming : String
  deriving Repr, DecidableEq

/-- A Python 3 runtime value that is either a `bytes` or a `str`
(content restricted to ASCII, carried as a Lean `String`). -/
inductive PyVal where
  | bytes (s : String)
  | str (s : String)
  deriving Repr, DecidableEq

/-- Python 3 `==` between `bytes` and `str` values: equal contents count only
when the runtime types agree; a `bytes` never equals a `str`. -/
def pyEq : PyVal → PyVal → Bool
  | .bytes a, .bytes b => a == b
  | .str a, .str b => a == b
  | _, _ => false

/-- `Telnet.write` with a `bytes` buffer: appends the buffer to the stream. -/
def writeBytes (s : String) (c : Conn) : Conn :=
  { c with written := c.written ++ [s] }

/-- `Telnet.write` with a `str` buffer: `telnetlib` first tests
`IAC in buffer` with `IAC : bytes`, which raises `TypeError` on a `str`
buffer, so nothing is sent. -/
def writeStr (_ : String) (c : Conn) : (Except PyErr Unit) × Conn :=
  (.error .typeError, c)

/-- `Telnet.read_until` with a `bytes` delimiter: returns everything up to and
including the first occurrence of the delimiter, consuming it from the
incoming stream.  If the delimiter never appears the underlying read fails
(stream closed / timed out), surfaced as `transportError`. -/
def readUntilBytes (delim : String) (c : Conn) : (Except PyErr String) × Conn :=
  match pySplit c.incoming delim with
  | p :: q :: rest =>
    (.ok (p ++ delim), { c with incoming := String.intercalate delim (q :: rest) })
  | _ => (.error .transportError, c)

/-- `Telnet.read_until` with a `str` delimiter: `read_until` searches the
(bytes) cooked queue with `find(match)`, which raises `TypeError` when given
a `str` pattern. -/
def readUntilStr (_ : String) (c : Conn) : (Except PyErr String) × Conn :=
  (.error .typeError, c)

/-- Python `dict` assignment `d[k] = v` on a dict represented as an ordered
association list: an existing key keeps its position and gets the new value,
a new key is appended. -/
def dictInsert (d : List (String × String)) (k v : String) : List (String × String) :=
  if d.any (fun p => p.1 == k) then
    d.map (fun p => if p.1 == k then (k, v) else p)
  else
    d ++ [(k, v)]

/-- Python `k in d`: key membership in the ordered association list. -/
def dictHasKey (d : List (String × String)) (k : String) : Bool :=
  d.any (fun p => p.1 == k)

/-! ## GetUPSList -/

/-- The body of `GetUPSList`'s parse loop:
`for line in result.split("\n"):` `if line[:3] == "UPS":`
`ups, desc = line[4:-1].split('"'); ups_list[ups.replace(" ","")] = desc`.
Tuple unpacking raises `ValueError` unless the split has exactly two parts. -/
def upsListLoop : List String → List (String × String) →
    Except PyErr (List (String × String))
  | [], acc => .ok acc
  | line :: rest, acc =>
    if pyTake line 3 == "UPS" then
      match pySplit (pyDrop (pyTake line (pyLen line - 1)) 4) "\"" with
      | [u, d] => upsListLoop rest (dictInsert acc (pyReplace u " " "") d)
      | _ => .error .valueError
    else
      upsListLoop rest acc

/-- `PyNUTClient.GetUPSList`: send `LIST UPS\n`, require the first line to be
exactly `BEGIN LIST UPS\n` (else raise `PyNUTError` with the newline
stripped), read through `END LIST UPS\n`, and fold the `UPS <id> "<desc>"`
body lines into a dict. -/
def GetUPSList (c : Conn) : (Except PyErr (List (String × String))) × Conn :=
  let c := writeBytes "LIST UPS\n" c
  match readUntilBytes "\n" c with
  | (.error e, c) => (.error e, c)
  | (.ok result, c) =>
    if result != "BEGIN LIST UPS\n" then
      (.error (.pyNUTError (pyReplace result "\n" "")), c)
    else
      match readUntilBytes "END LIST UPS\n" c with
      | (.error e, c) => (.error e, c)
      | (.ok result, c) =>
        match upsListLoop (pySplit result "\n") [] with
        | .ok d => (.ok d, c)
        | .error e => (.error e, c)

/-! ## GetUPSVars -/

/-- The body of `GetUPSVars`'s parse loop, over the already-split body lines:
`var = current[offset:].split('"')[0].replace(" ","")` (indexing `[0]` of a
`split` result never fails), then `data = current[offset:].split('"')[1]`,
which raises `IndexError` when the line holds no `"`, then
`ups_vars[var] = data`. -/
def upsVarsLoop (offset : Nat) : List String → List (String × String) →
    Except PyErr (List (String × String))
  | [], acc => .ok acc
  | current :: rest, acc =>
    match pySplit (pyDrop current offset) "\"" with
    | v :: data :: _ =>
      upsVarsLoop offset rest (dictInsert acc (pyReplace v " " "") data)
    | _ => .error .indexError

/-- `PyNUTClient.GetUPSVars`: send `LIST VAR <ups>\n`; when the first line is
not exactly `BEGIN LIST VAR <ups>\n` the method does not raise — it returns
the Python string `"ERR"` instead of a dict (modelled as `Sum.inl "ERR"`).
Otherwise it reads through `END LIST VAR <ups>\n`, strips
`len("END LIST VAR <ups>\n") + 1` characters from the end, splits on
newlines and parses each line at `offset = len("VAR <ups> ")`. -/
def GetUPSVars (ups : String) (c : Conn) :
    (Except PyErr (String ⊕ List (String × String))) × Conn :=
  let c := writeBytes ("LIST VAR " ++ ups ++ "\n") c
  match readUntilBytes "\n" c with
  | (.error e, c) => (.error e, c)
  | (.ok result, c) =>
    if result != "BEGIN LIST VAR " ++ ups ++ "\n" then
      (.ok (.inl "ERR"), c)
    else
      match readUntilBytes ("END LIST VAR " ++ ups ++ "\n") c with
      | (.error e, c) => (.error e, c)
      | (.ok result, c) =>
        let offset := pyLen ("VAR " ++ ups ++ " ")
        let cut := pyLen ("END LIST VAR " ++ ups ++ "\n") + 1
        match upsVarsLoop offset (pySplit (pyTake result (pyLen result - cut)) "\n") [] with
        | .ok d => (.ok (.inr d), c)
        | .error e => (.error e, c)

/-! ## GetUPSCommands -/

/-- The `try:`-block of `GetUPSCommands`, run once per parsed command name:
send `GET CMDDESC <ups><var>\n` (no space between the two — faithful to the
source), read one line **without decoding** (`temp` stays `bytes`), and test
`temp[:7] != "CMDDESC"`.  This compares a `bytes` against a `str`, which in
Python 3 is never equal, so the test is always true and `PyNUTError` is
raised; the surrounding `except:` then substitutes `desc = var`.  (Were the
comparison ever to succeed, the `else:` branch would call
`temp[off:-1].split('"')` — a `str` pattern on a `bytes` value — raising
`TypeError`, equally caught.)  Either way the returned description is `var`;
the writes and reads performed before the exception remain consumed. -/
def cmdDescTry (ups var : String) (c : Conn) : String × Conn :=
  let c := writeBytes ("GET CMDDESC " ++ ups ++ var ++ "\n") c
  match readUntilBytes "\n" c with
  | (.error _, c) => (var, c)
  | (.ok temp, c) =>
    if !pyEq (.bytes (pyTake temp 7)) (.str "CMDDESC") then
      (var, c)
    else
      (var, c)

/-- The body of `GetUPSCommands`'s parse loop over the split body lines:
`var = current[offset:].split('"')[0].replace(" ","")` (never fails), then
the per-command description lookup, then `ups_cmds[var] = desc`. -/
def upsCmdsLoop (offset : Nat) (ups : String) :
    List String → List (String × String) → Conn → List (String × String) × Conn
  | [], acc, c => (acc, c)
  | current :: rest, acc, c =>
    let v :=
      match pySplit (pyDrop current offset) "\"" with
      | v :: _ => pyReplace v " " ""
      | [] => ""
    let r := cmdDescTry ups v c
    upsCmdsLoop offset ups rest (dictInsert acc v r.1) r.2

/-- `PyNUTClient.GetUPSCommands`: send `LIST CMD <ups>\n`, require
`BEGIN LIST CMD <ups>\n` (else raise `PyNUTError`), read through
`END LIST CMD <ups>\n`, parse each body line at `offset = len("CMD <ups> ")`
and attach the per-command description produced by `cmdDescTry`. -/
def GetUPSCommands (ups : String) (c : Conn) :
    (Except PyErr (List (String × String))) × Conn :=
  let c := writeBytes ("LIST CMD " ++ ups ++ "\n") c
  match readUntilBytes "\n" c with
  | (.error e, c) => (.error e, c)
  | (.ok result, c) =>
    if result != "BEGIN LIST CMD " ++ ups ++ "\n" then
      (.error (.pyNUTError (pyReplace result "\n" "")), c)
    else
      match readUntilBytes ("END LIST CMD " ++ ups ++ "\n") c with
      | (.error e, c) => (.error e, c)
      | (.ok result, c) =>
        let offset := pyLen ("CMD " ++ ups ++ " ")
        let cut := pyLen ("END LIST CMD " ++ ups ++ "\n") + 1
        let r :=
          upsCmdsLoop offset ups (pySplit (pyTake result (pyLen result - cut)) "\n") [] c
        (.ok r.1, r.2)

/-! ## GetRWVars -/

/-- The body of `GetRWVars`'s parse loop.  In the source the whole `for` loop
sits inside `try: ... except: pass`, and the dict is mutated in place: a
body line whose `split('"')` has fewer than two parts raises `IndexError`
at `[1]`, the `except:` swallows it, and the loop stops — entries inserted
before the bad line survive, later lines are never processed. -/
def rwVarsLoop (offset : Nat) : List String → List (String × String) →
    List (String × String)
  | [], acc => acc
  | current :: rest, acc =>
    match pySplit (pyDrop current offset) "\"" with
    | v :: data :: _ =>
      rwVarsLoop offset rest (dictInsert acc (pyReplace v " " "") data)
    | _ => acc

/-- `PyNUTClient.GetRWVars`: send `LIST RW <ups>\n`, require
`BEGIN LIST RW <ups>\n` (else raise `PyNUTError`), read through
`END LIST RW <ups>\n` and parse body lines at `offset = len("VAR <ups>")`
(no trailing space — faithful to the source; the later `replace(" ","")`
hides the off-by-one).  The parse loop never raises (see `rwVarsLoop`). -/
def GetRWVars (ups : String) (c : Conn) :
    (Except PyErr (List (String × String))) × Conn :=
  let c := writeBytes ("LIST RW " ++ ups ++ "\n") c
  match readUntilBytes "\n" c with
  | (.error e, c) => (.error e, c)
  | (.ok result, c) =>
    if result != "BEGIN LIST RW " ++ ups ++ "\n" then
      (.error (.pyNUTError (pyReplace result "\n" "")), c)
    else
      match readUntilBytes ("END LIST RW " ++ ups ++ "\n") c with
      | (.error e, c) => (.error e, c)
      | (.ok result, c) =>
        let offset := pyLen ("VAR " ++ ups)
        let cut := pyLen ("END LIST RW " ++ ups ++ "\n") + 1
        (.ok (rwVarsLoop offset (pySplit (pyTake result (pyLen result - cut)) "\n") []), c)

/-! ## SetRWVar, RunUPSCommand -/

/-- `PyNUTClient.SetRWVar`: send `SET VAR <ups> <var> <value>\n`; return
`"OK"` exactly when the response line equals `OK\n`, else raise
`PyNUTError(result)` — the raw line, newline and all (this method does not
strip it). -/
def SetRWVar (ups var value : String) (c : Conn) : (Except PyErr String) × Conn :=
  let c := writeBytes ("SET VAR " ++ ups ++ " " ++ var ++ " " ++ value ++ "\n") c
  match readUntilBytes "\n" c with
  | (.error e, c) => (.error e, c)
  | (.ok result, c) =>
    if result == "OK\n" then
      (.ok "OK", c)
    else
      (.error (.pyNUTError result), c)

/-- `PyNUTClient.RunUPSCommand`: send `INSTCMD <ups> <command>\n`; return
`"OK"` exactly when the response equals `OK\n`, else raise `PyNUTError`
with the newline stripped. -/
def RunUPSCommand (ups command : String) (c : Conn) : (Except PyErr String) × Conn :=
  let c := writeBytes ("INSTCMD " ++ ups ++ " " ++ command ++ "\n") c
  match readUntilBytes "\n" c with
  | (.error e, c) => (.error e, c)
  | (.ok result, c) =>
    if result == "OK\n" then
      (.ok "OK", c)
    else
      (.error (.pyNUTError (pyReplace result "\n" "")), c)

/-! ## FSD -/

/-- `PyNUTClient.FSD`: send `MASTER <ups>\n` (a `bytes` write); if the reply
is not exactly `OK MASTER-GRANTED\n`, raise
`PyNUTError(("Master level function are not available", ""))` without
attempting the second step.  Otherwise the source executes
`self.__srv_handler.write( "FSD %s\n" % ups_ascii )`: the format string is a
`str` and `ups_ascii` a `bytes`, so the argument is the *text* string
`FSD b'<ups>'\n`, and `Telnet.write` raises `TypeError` on a `str` buffer —
the FSD command line is never transmitted and the subsequent read/compare
is dead code. -/
def FSD (ups : String) (c : Conn) : (Except PyErr String) × Conn :=
  let c := writeBytes ("MASTER " ++ ups ++ "\n") c
  match readUntilBytes "\n" c with
  | (.error e, c) => (.error e, c)
  | (.ok result, c) =>
    if result != "OK MASTER-GRANTED\n" then
      (.error (.pyNUTErrorPair "Master level function are not available" ""), c)
    else
      match writeStr ("FSD b'" ++ ups ++ "'\n") c with
      | (.error e, c) => (.error e, c)
      | (.ok _, c) =>
        match readUntilBytes "\n" c with
        | (.error e, c) => (.error e, c)
        | (.ok result, c) =>
          if result == "OK FSD-SET\n" then
            (.ok "OK", c)
          else
            (.error (.pyNUTError (pyReplace result "\n" "")), c)

/-! ## help, ver -/

/-- `PyNUTClient.help`: send `HELP\n` and return one raw line. -/
def help (c : Conn) : (Except PyErr String) × Conn :=
  let c := writeBytes "HELP\n" c
  readUntilBytes "\n" c

/-- `PyNUTClient.ver`: send `VER\n`, then
`self.__srv_handler.read_until( "\n" )` — the delimiter is a `str`, not
`b"\n"`, and `Telnet.read_until` raises `TypeError` when asked to search its
bytes queue for a `str` pattern, so the method never returns a version
line. -/
def ver (c : Conn) : (Except PyErr String) × Conn :=
  let c := writeBytes "VER\n" c
  readUntilStr "\n" c

/-! ## ListClients -/

/-- Python `d[k].append(host)` preceded by `if not k in d: d[k] = []`, on a
dict from device name to client-host list. -/
def clientsAppend (d : List (String × List String)) (k host : String) :
    List (String × List String) :=
  if d.any (fun p => p.1 == k) then
    d.map (fun p => if p.1 == k then (p.1, p.2 ++ [host]) else p)
  else
    d ++ [(k, [host])]

/-- The body of `ListClients`'s parse loop:
`for line in result.split("\n"):` `if line[:6] == "CLIENT":`
`host, ups = line[7:].split(' ')` (tuple unpacking — `ValueError` unless
exactly two parts), a no-op `ups.replace(' ', '')`, then append `host`
under key `ups`. -/
def clientsLoop : List String → List (String × List String) →
    Except PyErr (List (String × List String))
  | [], acc => .ok acc
  | line :: rest, acc =>
    if pyTake line 6 == "CLIENT" then
      match pySplit (pyDrop line 7) " " with
      | [host, u] => clientsLoop rest (clientsAppend acc u host)
      | _ => .error .valueError
    else
      clientsLoop rest acc

/-- `PyNUTClient.ListClients( ups = None )`: the very first statement is
`ups_ascii = ups.encode('ascii')`, so a call with the default `ups = None`
raises `AttributeError` (`None` has no `encode`) before anything is sent.
With a string filter, `if ups and (ups not in self.GetUPSList()):` performs a
full device enumeration — writing `LIST UPS\n` — and raises
`PyNUTError("<ups> is not a valid UPS")` when the filter is not a known
device (an empty-string filter is falsy and skips the check).  Then
`LIST CLIENTS <ups>\n` (or `LIST CLIENTS\n`) is sent, the first line must be
exactly `BEGIN LIST CLIENTS\n`, the block is read through
`END LIST CLIENTS\n`, and `CLIENT <host> <dev>` body lines are folded into
an ordered dict of host lists.  (The source's final `return` is misindented
by one column — a latent `IndentationError`; the embedding follows the
evident intent of returning the dict at method level.) -/
def ListClients (ups : Option String) (c : Conn) :
    (Except PyErr (List (String × List String))) × Conn :=
  match ups with
  | none => (.error .attributeError, c)
  | some s =>
    let validated : (Except PyErr Unit) × Conn :=
      if s != "" then
        match GetUPSList c with
        | (.error e, c) => (.error e, c)
        | (.ok m, c) =>
          if !dictHasKey m s then
            (.error (.pyNUTError (s ++ " is not a valid UPS")), c)
          else
            (.ok (), c)
      else
        (.ok (), c)
    match validated with
    | (.error e, c) => (.error e, c)
    | (.ok _, c) =>
      let c :=
        if s != "" then
          writeBytes ("LIST CLIENTS " ++ s ++ "\n") c
        else
          writeBytes "LIST CLIENTS\n" c
      match readUntilBytes "\n" c with
      | (.error e, c) => (.error e, c)
      | (.ok result, c) =>
        if result != "BEGIN LIST CLIENTS\n" then
          (.error (.pyNUTError (pyReplace result "\n" "")), c)
        else
          match readUntilBytes "END LIST CLIENTS\n" c with
          | (.error e, c) => (.error e, c)
          | (.ok result, c) =>
            match clientsLoop (pySplit result "\n") [] with
            | .ok d => (.ok d, c)
            | .error e => (.error e, c)

/-! ## General lemmas about the transport model -/

/-- A read never changes the written trace. -/
theorem readUntilBytes_written (d : String) (c : Conn) (x : Except PyErr String)
    (c' : Conn) (h : readUntilBytes d c = (x, c')) : c'.written = c.written := by
  unfold readUntilBytes at h
  split at h <;> (cases h; rfl)

/-- `GetUPSList` writes exactly the single request line `LIST UPS\n`,
whatever the server answers and whether it succeeds or raises. -/
theorem getUPSList_written (c : Conn) :
    (GetUPSList c).2.written = c.written ++ ["LIST UPS\n"] := by
  unfold GetUPSList
  dsimp only
  split
  case _ e c' heq =>
    simpa [writeBytes] using readUntilBytes_written _ _ _ _ heq
  case _ r c' heq =>
    have hw : c'.written = c.written ++ ["LIST UPS\n"] := by
      simpa [writeBytes] using readUntilBytes_written _ _ _ _ heq
    split
    · exact hw
    · split
      case _ e c'' heq2 =>
        simpa [hw] using readUntilBytes_written _ _ _ _ heq2
      case _ r2 c'' heq2 =>
        have hw2 : c''.written = c'.written :=
          readUntilBytes_written _ _ _ _ heq2
        split <;> simp [hw2, hw]

/-- The per-command description exchange always hands back the command name
itself: the `bytes`-vs-`str` comparison in its success test can never
succeed, so every path lands in the `except:` fallback `desc = var`. -/
theorem cmdDescTry_fst (ups var : String) (c : Conn) :
    (cmdDescTry ups var c).1 = var := by
  unfold cmdDescTry
  dsimp only
  split
  · rfl
  · split <;> rfl

/-- Inserting a key with itself as value preserves "every value equals its
key" across a Python dict assignment. -/
theorem dictInsert_self_pres (d : List (String × String)) (k : String)
    (hd : ∀ p ∈ d, p.2 = p.1) : ∀ p ∈ dictInsert d k k, p.2 = p.1 := by
  intro p hp
  unfold dictInsert at hp
  split at hp
  · rcases List.mem_map.1 hp with ⟨q, hq, rfl⟩
    split
    · rfl
    · exact hd q hq
  · rcases List.mem_append.1 hp with h | h
    · exact hd p h
    · simp at h
      subst h
      rfl

/-- Every entry produced by the command-enumeration loop has the command
name as its value, provided the accumulator already does. -/
theorem upsCmdsLoop_pres (offset : Nat) (ups : String) :
    ∀ (lines : List String) (acc : List (String × String)) (c : Conn),
      (∀ p ∈ acc, p.2 = p.1) →
      ∀ p ∈ (upsCmdsLoop offset ups lines acc c).1, p.2 = p.1 := by
  intro lines
  induction lines with
  | nil =>
    intro acc c hacc
    simpa [upsCmdsLoop] using hacc
  | cons line rest ih =>
    intro acc c hacc
    unfold upsCmdsLoop
    dsimp only
    rw [cmdDescTry_fst]
    exact ih _ _ (dictInsert_self_pres _ _ hacc)

/-- Appending a malformed line (fewer than two quote-split parts at the
given offset) truncates the writable-variable parse at that line: everything
after it is ignored, and no exception escapes. -/
theorem rwVarsLoop_stops (offset : Nat) (bad : String) (rest : List String)
    (hbad : (pySplit (pyDrop bad offset) "\"").length < 2) :
    ∀ (good : List String) (acc : List (String × String)),
      rwVarsLoop offset (good ++ bad :: rest) acc = rwVarsLoop offset good acc := by
  intro good
  induction good with
  | nil =>
    intro acc
    rw [List.nil_append]
    simp only [rwVarsLoop]
    split
    case _ v data t heq =>
      rw [heq] at hbad
      simp at hbad
      omega
    case _ => rfl
  | cons line good ih =>
    intro acc
    rw [List.cons_append]
    simp only [rwVarsLoop]
    split
    · exact ih _
    · rfl

end PyNUT

open PyNUT

/-! ## Claim theorems -/

/-- C3: when the server answers the device enumeration with exactly
`BEGIN LIST UPS\nUPS ups1 "Desc one"\nUPS ups2 "Desc two"\nEND LIST UPS\n`,
`GetUPSList` returns the mapping `{"ups1": "Desc one", "ups2": "Desc two"}`
(having written exactly the request `LIST UPS\n`). -/
theorem C3_getUPSList_scenarioA :
    GetUPSList
      { written := [],
        incoming := "BEGIN LIST UPS\nUPS ups1 \"Desc one\"\nUPS ups2 \"Desc two\"\nEND LIST UPS\n" }
      = (.ok [("ups1", "Desc one"), ("ups2", "Desc two")],
         { written := ["LIST UPS\n"], incoming := "" }) := by
  rfl

/-- C10: a correctly framed `LIST VAR` response with zero body lines does not
produce an empty mapping: the unguarded `split('"')[1]` on the one empty
residual line raises `IndexError`, an exception outside the module's
documented error taxonomy: `PyErr.indexError` is a constructor distinct
from `pyNUTError`, the module's only declared exception class. -/
theorem C10_getUPSVars_empty_body_indexerror :
    GetUPSVars "dev1"
      { written := [], incoming := "BEGIN LIST VAR dev1\nEND LIST VAR dev1\n" }
      = (.error .indexError, { written := ["LIST VAR dev1\n"], incoming := "" }) := by
  rfl

/-- C8 (refuting "the operation has no failure case"): `ver` always fails.
It does send `VER\n`, but then calls `read_until` with the *text* delimiter
`"\n"` instead of `b"\n"`, which raises `TypeError` against the bytes
stream — for every connection state, including one where a version line is
waiting, `ver` raises and never returns the version text. -/
theorem C8_ver_always_typeerror (c : Conn) :
    ver c = (.error .typeError,
      { written := c.written ++ ["VER\n"], incoming := c.incoming }) := by
  rfl

/-- C2 (refuting the success half): with the server granting master level and
ready to confirm the shutdown (`OK MASTER-GRANTED\n` then `OK FSD-SET\n`),
`FSD` still fails: the second write formats the `bytes` device id into a
`str` (`"FSD %s\n" % ups_ascii`), and the transport rejects `str` buffers
with `TypeError`, so no `FSD` line is ever written (the trace holds only
`MASTER dev1\n`) and `"OK"` is never returned.  The first half of the claim
does hold, as the second conjunct shows: a non-granted reply fails with the
"master privilege unavailable" error, again without writing any `FSD`
line. -/
theorem C2_fsd_master_then_typeerror :
    (FSD "dev1" { written := [], incoming := "OK MASTER-GRANTED\nOK FSD-SET\n" }
      = (.error .typeError,
         { written := ["MASTER dev1\n"], incoming := "OK FSD-SET\n" }))
    ∧ (FSD "dev1" { written := [], incoming := "ERR ACCESS-DENIED\nOK FSD-SET\n" }
      = (.error (.pyNUTErrorPair "Master level function are not available" ""),
         { written := ["MASTER dev1\n"], incoming := "OK FSD-SET\n" })) := by
  exact ⟨rfl, rfl⟩

/-- C5 (refuting the no-filter scenario): calling `ListClients` with no
device filter (`ups = None`, the default) raises `AttributeError` at
`ups.encode('ascii')` before anything is written, even with the server ready
to answer Scenario D's block.  The second conjunct shows the parse logic the
claim describes is otherwise reachable: an empty-string filter (which skips
both the encode crash and the validation) does yield
`{"dev1": ["10.0.0.1", "10.0.0.2"]}` with hosts in server order. -/
theorem C5_listClients_default_attributeError :
    (ListClients none
      { written := [],
        incoming := "BEGIN LIST CLIENTS\nCLIENT 10.0.0.1 dev1\nCLIENT 10.0.0.2 dev1\nEND LIST CLIENTS\n" }
      = (.error .attributeError,
         { written := [],
           incoming := "BEGIN LIST CLIENTS\nCLIENT 10.0.0.1 dev1\nCLIENT 10.0.0.2 dev1\nEND LIST CLIENTS\n" }))
    ∧ (ListClients (some "")
      { written := [],
        incoming := "BEGIN LIST CLIENTS\nCLIENT 10.0.0.1 dev1\nCLIENT 10.0.0.2 dev1\nEND LIST CLIENTS\n" }
      = (.ok [("dev1", ["10.0.0.1", "10.0.0.2"])],
         { written := ["LIST CLIENTS\n"], incoming := "" })) := by
  exact ⟨rfl, rfl⟩

/-- C1 counterexample: with the server's device registry holding `ups1` and
`ups2`, calling `ListClients` with the unknown filter `"nope"` does fail with
the validation error — but only after the membership check itself has run a
device enumeration, so the request `LIST UPS\n` is already on the wire: the
written trace at the moment the error is raised is not empty, contradicting
"before any bytes are written to the transport". -/
theorem C1_validation_writes_first :
    (ListClients (some "nope")
      { written := [],
        incoming := "BEGIN LIST UPS\nUPS ups1 \"Desc one\"\nUPS ups2 \"Desc two\"\nEND LIST UPS\n" }
      = (.error (.pyNUTError "nope is not a valid UPS"),
         { written := ["LIST UPS\n"], incoming := "" }))
    ∧ (["LIST UPS\n"] : List String).isEmpty = false := by
  exact ⟨rfl, rfl⟩

/-- C6 counterexample: a well-framed `LIST RW` block whose middle body line
`VAR dev1 b 2` is malformed (no quoted value).  The claim says every
well-formed body line still contributes its pair; but the trailing
well-formed line `VAR dev1 c "3"` is lost — the returned mapping is just
`{"a": "1"}` and contains no pair for `c`. -/
theorem C6_rwvars_truncation_counter :
    (GetRWVars "dev1"
      { written := [],
        incoming := "BEGIN LIST RW dev1\nVAR dev1 a \"1\"\nVAR dev1 b 2\nVAR dev1 c \"3\"\nEND LIST RW dev1\n" }
      = (.ok [("a", "1")], { written := ["LIST RW dev1\n"], incoming := "" }))
    ∧ dictHasKey [("a", "1")] "c" = false := by
  exact ⟨rfl, rfl⟩

/-- C4: whenever the first response line to `LIST VAR <dev>` is anything
other than exactly `BEGIN LIST VAR <dev>\n`, `GetUPSVars` does not raise:
it returns normally with the sentinel string `"ERR"` in place of a
mapping. -/
theorem C4_getUPSVars_begin_mismatch_sentinel (ups : String) (c c' : Conn)
    (r : String)
    (h : readUntilBytes "\n" (writeBytes ("LIST VAR " ++ ups ++ "\n") c) = (.ok r, c'))
    (hne : r ≠ "BEGIN LIST VAR " ++ ups ++ "\n") :
    GetUPSVars ups c = (.ok (.inl "ERR"), c') := by
  unfold GetUPSVars
  dsimp only
  rw [h]
  simp [hne]

/-- C4 witness: the server answering `ERR UNKNOWN-UPS\n` to
`LIST VAR dev1\n` yields the sentinel, not an exception. -/
theorem C4_sentinel_witness :
    GetUPSVars "dev1" { written := [], incoming := "ERR UNKNOWN-UPS\n" }
      = (.ok (.inl "ERR"), { written := ["LIST VAR dev1\n"], incoming := "" }) :=
  C4_getUPSVars_begin_mismatch_sentinel "dev1"
    { written := [], incoming := "ERR UNKNOWN-UPS\n" }
    { written := ["LIST VAR dev1\n"], incoming := "" }
    "ERR UNKNOWN-UPS\n" rfl (by decide)

/-- C7: `SetRWVar` returns the confirmation `"OK"` exactly when the single
response line equals `OK\n`; any other line raises `PyNUTError` carrying the
raw response (this method hands the line over unstripped, newline
included). -/
theorem C7_setRWVar_ok_iff (ups var value : String) (c c' : Conn) (r : String)
    (h : readUntilBytes "\n"
          (writeBytes ("SET VAR " ++ ups ++ " " ++ var ++ " " ++ value ++ "\n") c)
          = (.ok r, c')) :
    SetRWVar ups var value c =
      if r = "OK\n" then (.ok "OK", c') else (.error (.pyNUTError r), c') := by
  unfold SetRWVar
  dsimp only
  rw [h]
  by_cases hr : r = "OK\n" <;> simp [hr]

/-- C7 witness: a `SET VAR` answered with `ERR INVALID-VALUE\n` fails with
the protocol error carrying the raw response `ERR INVALID-VALUE\n`. -/
theorem C7_setRWVar_witness :
    SetRWVar "dev1" "battery.charge.low" "30"
      { written := [], incoming := "ERR INVALID-VALUE\n" }
      = (.error (.pyNUTError "ERR INVALID-VALUE\n"),
         { written := ["SET VAR dev1 battery.charge.low 30\n"], incoming := "" }) := by
  have h := C7_setRWVar_ok_iff "dev1" "battery.charge.low" "30"
    { written := [], incoming := "ERR INVALID-VALUE\n" }
    { written := ["SET VAR dev1 battery.charge.low 30\n"], incoming := "" }
    "ERR INVALID-VALUE\n" rfl
  rw [if_neg (by decide)] at h
  exact h

/-- C9: in every successful `GetUPSCommands` run, whatever the server
answers to the `GET CMDDESC` lookups, every entry of the returned mapping
has the command name itself as its description: the lookup's success test
compares the undecoded `bytes` response against a `str` literal, which never
succeeds, so the `except:` fallback `desc = var` always applies. -/
theorem C9_cmd_desc_always_name (ups : String) (c c' : Conn)
    (m : List (String × String))
    (h : GetUPSCommands ups c = (.ok m, c')) : ∀ p ∈ m, p.2 = p.1 := by
  unfold GetUPSCommands at h
  dsimp only at h
  split at h
  · simp at h
  · split at h
    · simp at h
    · split at h
      · simp at h
      · rw [Prod.mk.injEq, Except.ok.injEq] at h
        rcases h with ⟨hm, -⟩
        subst hm
        exact upsCmdsLoop_pres _ _ _ _ _ (by simp)

/-- C9 witness: even with a perfectly well-formed `CMDDESC` answer waiting,
the one command `load.off` is mapped to its own name. -/
theorem C9_cmd_desc_witness :
    (GetUPSCommands "dev1"
      { written := [],
        incoming := "BEGIN LIST CMD dev1\nCMD dev1 load.off\nEND LIST CMD dev1\nCMDDESC dev1 load.off \"Turn off the load\"\n" }).1
      = .ok [("load.off", "load.off")]
    ∧ (("load.off", "load.off") : String × String).2 = ("load.off", "load.off").1 := by
  refine ⟨rfl, ?_⟩
  exact C9_cmd_desc_always_name "dev1"
    { written := [],
      incoming := "BEGIN LIST CMD dev1\nCMD dev1 load.off\nEND LIST CMD dev1\nCMDDESC dev1 load.off \"Turn off the load\"\n" }
    { written := ["LIST CMD dev1\n", "GET CMDDESC dev1load.off\n"], incoming := "" }
    [("load.off", "load.off")] rfl ("load.off", "load.off") (by simp)

/-- C1 as amended: an unknown, non-empty device filter makes `ListClients`
fail with the validation error before the `LIST CLIENTS` request is written —
but not before any bytes at all: the membership check runs a device
enumeration, so exactly the `LIST UPS\n` request has been written when the
error is raised. -/
theorem C1_unknown_filter_validation (s : String) (c c' : Conn)
    (m : List (String × String))
    (hs : s ≠ "")
    (hget : GetUPSList c = (.ok m, c'))
    (hkey : dictHasKey m s = false) :
    ListClients (some s) c
      = (.error (.pyNUTError (s ++ " is not a valid UPS")), c')
    ∧ c'.written = c.written ++ ["LIST UPS\n"] := by
  constructor
  · unfold ListClients
    dsimp only
    rw [if_pos (by simpa using hs), hget]
    dsimp only
    rw [hkey]
    simp
  · have hw := getUPSList_written c
    rw [hget] at hw
    exact hw

/-- C1 amended-claim witness: filter `"nope"` against a registry holding
`ups1` and `ups2`. -/
theorem C1_unknown_filter_validation_witness :
    (ListClients (some "nope")
      { written := [],
        incoming := "BEGIN LIST UPS\nUPS ups1 \"Desc one\"\nUPS ups2 \"Desc two\"\nEND LIST UPS\n" }
      = (.error (.pyNUTError "nope is not a valid UPS"),
         { written := ["LIST UPS\n"], incoming := "" }))
    ∧ ({ written := ["LIST UPS\n"], incoming := "" } : Conn).written
      = ([] : List String) ++ ["LIST UPS\n"] :=
  C1_unknown_filter_validation "nope"
    { written := [],
      incoming := "BEGIN LIST UPS\nUPS ups1 \"Desc one\"\nUPS ups2 \"Desc two\"\nEND LIST UPS\n" }
    { written := ["LIST UPS\n"], incoming := "" }
    [("ups1", "Desc one"), ("ups2", "Desc two")]
    (by decide) rfl (by decide)

/-- C6 as amended: in a well-framed `LIST RW` response, a malformed body
line (one whose quote-split has fewer than two parts) has its `IndexError`
suppressed and the operation still returns a mapping rather than raising —
but parsing stops there: only the lines before the first malformed one are
folded in, and every line after it is dropped. -/
theorem C6_rwvars_malformed_truncates (ups : String) (c c2 c3 : Conn)
    (body : String)
    (h1 : readUntilBytes "\n" (writeBytes ("LIST RW " ++ ups ++ "\n") c)
          = (.ok ("BEGIN LIST RW " ++ ups ++ "\n"), c2))
    (h2 : readUntilBytes ("END LIST RW " ++ ups ++ "\n") c2 = (.ok body, c3))
    (good : List String) (bad : String) (rest : List String)
    (hsplit : pySplit
        (pyTake body (pyLen body - (pyLen ("END LIST RW " ++ ups ++ "\n") + 1))) "\n"
        = good ++ bad :: rest)
    (hbad : (pySplit (pyDrop bad (pyLen ("VAR " ++ ups))) "\"").length < 2) :
    GetRWVars ups c = (.ok (rwVarsLoop (pyLen ("VAR " ++ ups)) good []), c3) := by
  unfold GetRWVars
  dsimp only
  rw [h1]
  dsimp only
  rw [if_neg (by simp)]
  rw [h2]
  dsimp only
  rw [hsplit, rwVarsLoop_stops _ _ _ hbad]

/-- C6 amended-claim witness: body lines `VAR dev1 a "1"`, `VAR dev1 b 2`
(malformed), `VAR dev1 c "3"` produce exactly `{"a": "1"}` — prior entries
kept, the malformed line and everything after it dropped, no exception. -/
theorem C6_rwvars_malformed_truncates_witness :
    GetRWVars "dev1"
      { written := [],
        incoming := "BEGIN LIST RW dev1\nVAR dev1 a \"1\"\nVAR dev1 b 2\nVAR dev1 c \"3\"\nEND LIST RW dev1\n" }
      = (.ok [("a", "1")], { written := ["LIST RW dev1\n"], incoming := "" }) := by
  have h := C6_rwvars_malformed_truncates "dev1"
    { written := [],
      incoming := "BEGIN LIST RW dev1\nVAR dev1 a \"1\"\nVAR dev1 b 2\nVAR dev1 c \"3\"\nEND LIST RW dev1\n" }
    { written := ["LIST RW dev1\n"],
      incoming := "VAR dev1 a \"1\"\nVAR dev1 b 2\nVAR dev1 c \"3\"\nEND LIST RW dev1\n" }
    { written := ["LIST RW dev1\n"], incoming := "" }
    "VAR dev1 a \"1\"\nVAR dev1 b 2\nVAR dev1 c \"3\"\nEND LIST RW dev1\n"
    rfl rfl
    ["VAR dev1 a \"1\""] "VAR dev1 b 2" ["VAR dev1 c \"3\""]
    (by decide) (by decide)
  exact h.trans rfl
